import Mathlib

/-!
Verification development for the Poison Game frontend (Stellar / Noir ZK game).

The definitions below are a shallow embedding of the TypeScript sources:
  - `zkPoisonEngine.ts` (commitment engine): `validateBoard`, `generateTileProof`,
    `createRandomSessionId`;
  - `poisonGameService.ts` (handshake coordinator and game actions):
    `prepareStartGame` auth-entry selection, `parseAuthEntry`,
    `importAndSignAuthEntry`, `commitBoard`, `respondToAttack`;
  - `PoisonGameGame.tsx` (turn state machine and board editor): `isMyAttackTurn`,
    `isMyDefenseTurn`, `runAction`, the board tile click handler;
  - `GameLobby.tsx` (session id selection).

Tile types are the raw numbers used by the source: 0 = Normal, 1 = Poison, 2 = Shield.
Boards are lists of naturals (runtime tile values are unconstrained numbers, and the
source validates them explicitly). Addresses are strings. Machine integers that matter
(32-bit session ids) are naturals reduced modulo 2 ^ 32 where the source draws them
from a `Uint32Array`.
-/

namespace PoisonGame

/-! ## Commitment engine (`zkPoisonEngine.ts`) -/

/-- Result record of `validateBoard`: the `valid` flag plus the optional error
message, mirroring the `{ valid: boolean; error?: string }` shape of the source. -/
structure ValidateResult where
  valid : Bool
  error : Option String
  deriving Repr, DecidableEq

/-- Shallow embedding of `validateBoard` from `zkPoisonEngine.ts`: checks the tile
count is 15, every tile value is one of 0, 1, 2, and that there are exactly 2 poison
tiles (value 1) and exactly 1 shield tile (value 2), returning the error message the
source builds for the first failed check. -/
def validateBoard (tiles : List Nat) : ValidateResult :=
  if tiles.length ≠ 15 then
    ⟨false, some ("Need 15 tiles, got " ++ toString tiles.length)⟩
  else if tiles.any (fun t => t ≠ 0 && t ≠ 1 && t ≠ 2) then
    ⟨false, some "Invalid tile values"⟩
  else
    let poisons := (tiles.filter (fun t => t = 1)).length
    let shields := (tiles.filter (fun t => t = 2)).length
    if poisons ≠ 2 then
      ⟨false, some ("Need exactly 2 poison tiles, got " ++ toString poisons)⟩
    else if shields ≠ 1 then
      ⟨false, some ("Need exactly 1 shield tile, got " ++ toString shields)⟩
    else
      ⟨true, none⟩

/-- Events of the expensive ZK pipeline inside `generateTileProof`: witness
generation by `noir.execute` and proof generation by `backend.generateProof`. -/
inductive ZkEvent where
  | witnessGenerated
  | proofGenerated
  deriving Repr, DecidableEq

/-- Shallow embedding of `generateTileProof` from `zkPoisonEngine.ts`. The input
checks run first, throwing (returning `.error`) before any ZK work; on success the
witness and proof are produced (recorded as events) and the proof blob is returned
opaquely as the event list. The second component is the list of ZK events that
happened before the function returned. -/
def generateTileProof (tiles : List Nat) (tileIndex : Int) (tileType : Nat) :
    Except String Unit × List ZkEvent :=
  if tiles.length ≠ 15 then (Except.error "Need 15 tiles", [])
  else if tileIndex < 0 || tileIndex > 14 then (Except.error "Invalid tile index", [])
  else if tiles.getD tileIndex.toNat 0 ≠ tileType then
    (Except.error "Tile type mismatch - check board data", [])
  else
    (Except.ok (), [ZkEvent.witnessGenerated, ZkEvent.proofGenerated])

/-! ## Session handshake coordinator (`poisonGameService.ts`) -/

/-- One simulated authorization entry returned by the `start_game` dry-run.
`address` is `some a` for an address-based entry (credential address `a`) and
`none` for an entry whose credentials are not address-based, for which the
accessor `Address.fromScAddress(...)` in the source throws and the loop skips it. -/
structure AuthEntry where
  address : Option String
  payload : Nat
  deriving Repr, DecidableEq

/-- Embedding of the auth-entry selection loop of `prepareStartGame`
(`poisonGameService.ts`): scan the auth entries of the simulation in order, skip the
ones that are not address-based, and take the first whose credential address
equals `player1`; fail with the no-authorization-found error when none matches. -/
def selectPlayer1AuthEntry (authEntries : List AuthEntry) (player1 : String) :
    Except String AuthEntry :=
  match authEntries.find? (fun e => e.address == some player1) with
  | some e => Except.ok e
  | none => Except.error ("No auth entry found for Player 1 (" ++ player1 ++ ")")

/-- The fields of a transported handshake artifact (the signed Player 1 auth
entry XDR), as read by `parseAuthEntry`: the credential address, the invoked
function name, the raw argument list of the root invocation, and the signature
expiration ledger (`validUntil`) that `prepareStartGame` stamped on it. -/
structure AuthEntryData where
  player1 : String
  functionName : String
  args : List Nat
  validUntil : Nat
  deriving Repr, DecidableEq

/-- The session parameters `parseAuthEntry` extracts from a well-formed artifact. -/
structure GameParams where
  sessionId : Nat
  player1 : String
  player1Points : Nat
  deriving Repr, DecidableEq

/-- Shallow embedding of `parseAuthEntry` (`poisonGameService.ts`): purely local
decoding of the artifact that fails unless the root invocation is `start_game`
with exactly 2 arguments, and otherwise returns the session id, the Player 1
address and the Player 1 points. -/
def parseAuthEntry (artifact : AuthEntryData) : Except String GameParams :=
  if artifact.functionName ≠ "start_game" then
    Except.error ("Unexpected function in auth entry: " ++ artifact.functionName)
  else if artifact.args.length ≠ 2 then
    Except.error ("Expected 2 args in auth entry, got " ++ toString artifact.args.length)
  else
    Except.ok ⟨artifact.args.getD 0 0, artifact.player1, artifact.args.getD 1 0⟩

/-- Network operations `importAndSignAuthEntry` can perform, in source order:
the `start_game` rebuild-and-simulate dry-run and the latest-ledger fetch done
by `calculateValidUntilLedger`. -/
inductive NetOp where
  | simulateStartGame
  | fetchLatestLedger
  deriving Repr, DecidableEq

/-- Error outcomes of `importAndSignAuthEntry`. -/
inductive AcceptError where
  | parseFailed (msg : String)
  | selfPlay
  | handshakeExpired
  deriving Repr, DecidableEq

/-- The fully authorized `start_game` action produced by a successful merge. -/
structure MergedStartGame where
  sessionId : Nat
  player1 : String
  player2 : String
  player1Points : Nat
  player2Points : Nat
  deriving Repr, DecidableEq

/-- Modelled from the spec: `injectSignedAuthEntry` (imported by
`poisonGameService.ts` from `@/utils/authEntryUtils`, a repository module not
included under `src/`) merges the pre-signed Player 1 authorization entry into
the rebuilt transaction. Per the spec, the merge fails with `HandshakeExpired`
when the artifact validity window (`validUntil`) has already lapsed at merge
time, i.e. when the current ledger sequence is past the signature expiration
ledger of the artifact. -/
def injectSignedAuthEntry (validUntil currentLedger : Nat) : Except AcceptError Unit :=
  if validUntil < currentLedger then Except.error AcceptError.handshakeExpired
  else Except.ok ()

/-- Shallow embedding of `importAndSignAuthEntry` (`poisonGameService.ts`), the
responder side of the handshake (acceptOpen). Steps, in source order: locally
parse the artifact; reject self-play when the responder address equals the
Player 1 address of the artifact; rebuild and simulate the `start_game` action
over the network; fetch the current ledger to compute the responder validity
window; merge the pre-signed Player 1 entry via `injectSignedAuthEntry` (which
enforces the artifact validity window); sign the responder entries and return
the merged action. The second component records the network operations that
were performed before the function returned. -/
def importAndSignAuthEntry (artifact : AuthEntryData) (player2Address : String)
    (player2Points : Nat) (currentLedger : Nat) :
    Except AcceptError MergedStartGame × List NetOp :=
  match parseAuthEntry artifact with
  | Except.error m => (Except.error (AcceptError.parseFailed m), [])
  | Except.ok gp =>
    if player2Address = gp.player1 then
      (Except.error AcceptError.selfPlay, [])
    else
      match injectSignedAuthEntry artifact.validUntil currentLedger with
      | Except.error e =>
        (Except.error e, [NetOp.simulateStartGame, NetOp.fetchLatestLedger])
      | Except.ok _ =>
        (Except.ok ⟨gp.sessionId, gp.player1, player2Address, gp.player1Points, player2Points⟩,
         [NetOp.simulateStartGame, NetOp.fetchLatestLedger])

/-! ## Pre-submission length checks (`poisonGameService.ts` and its duplicate
variant, `src/unnamed/part_004`) -/

/-- Embedding of the proof-length gate at the top of `respondToAttack` in
`poisonGameService.ts`: a proof blob whose byte length is not exactly 14592
throws before the transaction is built or sent. -/
def respondToAttackProofGate (proofLen : Nat) : Except String Unit :=
  if proofLen ≠ 14592 then
    Except.error ("Proof must be 14592 bytes, got " ++ toString proofLen)
  else Except.ok ()

/-- Embedding of the proof-length gate of the duplicate `respondToAttack` in
`src/unnamed/part_004`: a wrong-length proof only triggers `console.warn`; the
function proceeds to build and send the transaction either way. The Bool
records whether the warning was logged. -/
def respondToAttackProofGateVariant (proofLen : Nat) : Except String Unit × Bool :=
  if proofLen ≠ 14592 then (Except.ok (), true) else (Except.ok (), false)

/-- Embedding of the commitment-length gate at the top of `commitBoard` (both
`poisonGameService.ts` and the `src/unnamed/part_004` variant): a board hash
whose byte length is not exactly 32 throws before any transaction is built. -/
def commitBoardHashGate (hashLen : Nat) : Except String Unit :=
  if hashLen ≠ 32 then
    Except.error ("boardHash must be 32 bytes, got " ++ toString hashLen)
  else Except.ok ()

/-! ## Turn state machine (`PoisonGameGame.tsx`) -/

/-- The slice of the on-chain `GameState` the per-player turn logic reads:
`current_turn` (1 or 2) and `has_pending_attack`. -/
structure GameStateView where
  current_turn : Nat
  has_pending_attack : Bool
  deriving Repr, DecidableEq

/-- Embedding of `isMyAttackTurn` (`PoisonGameGame.tsx`):
`myPlayerNum !== 0 && !gameState?.has_pending_attack && gameState?.current_turn === myPlayerNum`. -/
def isMyAttackTurn (myPlayerNum : Nat) (g : GameStateView) : Bool :=
  myPlayerNum ≠ 0 && !g.has_pending_attack && g.current_turn == myPlayerNum

/-- Embedding of `isMyDefenseTurn` (`PoisonGameGame.tsx`):
`myPlayerNum !== 0 && gameState?.has_pending_attack === true && gameState?.current_turn !== myPlayerNum`. -/
def isMyDefenseTurn (myPlayerNum : Nat) (g : GameStateView) : Bool :=
  myPlayerNum ≠ 0 && g.has_pending_attack && g.current_turn != myPlayerNum

/-- The per-player sub-state within the Playing phase. -/
inductive SubState where
  | myTurnToAttack
  | myTurnToDefend
  | waiting
  deriving Repr, DecidableEq

/-- The derived sub-state the play-phase render uses: the attack section shows
when `isMyAttackTurn`, the defense section when `isMyDefenseTurn`, and the
waiting section when neither holds. -/
def derivedSubState (myPlayerNum : Nat) (g : GameStateView) : SubState :=
  if isMyAttackTurn myPlayerNum g then SubState.myTurnToAttack
  else if isMyDefenseTurn myPlayerNum g then SubState.myTurnToDefend
  else SubState.waiting

/-! ## Action lock (`runAction` in `PoisonGameGame.tsx`) -/

/-- Embedding of `isBusy = loading || isCommitting || isResponding`
(the `part_003` variant also folds `loading` into the same disjunction). -/
def isBusy (loading isCommitting isResponding : Bool) : Bool :=
  loading || isCommitting || isResponding

/-- Outcome of one `runAction` invocation: whether the wrapped action body ran,
the value of the lock after the call returns, and the result of the body
(`none` when the invocation was skipped; a skipped invocation raises nothing). -/
structure RunActionOutcome where
  executed : Bool
  lockAfter : Bool
  result : Option (Except String Unit)
  deriving Repr

/-- Shallow embedding of `runAction` (`PoisonGameGame.tsx`): when the action
lock is already held or a submission is busy, return immediately without
executing (and without touching the lock); otherwise take the lock, run the
action, and release the lock in `finally` on both the normal and the error
exit path. The action body is modelled by its result. -/
def runAction (lock busy : Bool) (action : Except String Unit) : RunActionOutcome :=
  if lock || busy then ⟨false, lock, none⟩
  else ⟨true, false, some action⟩

/-! ## Board editor tile click (`src/unnamed/part_003`) -/

/-- Shallow embedding of the board tile `onClick` handler in the commit-phase
board grid of `src/unnamed/part_003`: clicking a tile that already holds the
active tool clears it to 0; otherwise, placing poison when 2 are already on the
board, or a shield when 1 is already on the board, is a no-op; otherwise the
tile becomes the active tool. `poisonCount` and `shieldCount` are computed from
the current board exactly as the component does. -/
def tileClick (myBoard : List Nat) (idx : Nat) (activeTool : Nat) : List Nat :=
  let poisonCount := (myBoard.filter (fun t => t = 1)).length
  let shieldCount := (myBoard.filter (fun t => t = 2)).length
  if myBoard.getD idx 0 = activeTool then myBoard.set idx 0
  else if activeTool = 1 ∧ poisonCount ≥ 2 ∧ myBoard.getD idx 0 ≠ 1 then myBoard
  else if activeTool = 2 ∧ shieldCount ≥ 1 ∧ myBoard.getD idx 0 ≠ 2 then myBoard
  else myBoard.set idx activeTool

/-! ## Session id selection (`GameLobby` variants) -/

/-- Shallow embedding of `createRandomSessionId` (`src/unnamed/part_002`,
crypto path): repeatedly draw a `Uint32Array` value until it is nonzero and
return it. The random source is modelled as the list of successive 32-bit
draws (each reduced modulo 2 ^ 32); the result is the first nonzero draw, or
`none` when the modelled draw list is exhausted (the source would keep
looping). -/
def createRandomSessionId (draws : List Nat) : Option Nat :=
  (draws.map (fun d => d % 2 ^ 32)).find? (fun v => v ≠ 0)

/-- Shallow embedding of the session id choice in `handleCreateGame`
(`GameLobby.tsx`): `Math.floor(Math.random() * 1000000000)`, where
`Math.random()` yields a value `r` with `0 ≤ r < 1`, modelled as a rational. -/
def handleCreateGameSessionId (r : ℚ) : ℤ :=
  ⌊r * 1000000000⌋

/-! ## Theorems -/

/-- C2: for every tile array, `validateBoard` accepts iff the array has 15 slots,
every slot is one of 0 (Normal), 1 (Poison), 2 (Shield), there are exactly 2
poison tiles and exactly 1 shield tile; a wrong length, a wrong poison count, or
a wrong shield count is rejected with the error message naming the failed count. -/
theorem validateBoard_spec (tiles : List Nat) :
    ((validateBoard tiles).valid = true ↔
      tiles.length = 15 ∧ (∀ t ∈ tiles, t = 0 ∨ t = 1 ∨ t = 2) ∧
      (tiles.filter (fun t => t = 1)).length = 2 ∧
      (tiles.filter (fun t => t = 2)).length = 1)
    ∧ (tiles.length ≠ 15 →
        (validateBoard tiles).error =
          some ("Need 15 tiles, got " ++ toString tiles.length))
    ∧ (tiles.length = 15 → (∀ t ∈ tiles, t = 0 ∨ t = 1 ∨ t = 2) →
        (tiles.filter (fun t => t = 1)).length ≠ 2 →
        (validateBoard tiles).error =
          some ("Need exactly 2 poison tiles, got " ++
            toString (tiles.filter (fun t => t = 1)).length))
    ∧ (tiles.length = 15 → (∀ t ∈ tiles, t = 0 ∨ t = 1 ∨ t = 2) →
        (tiles.filter (fun t => t = 1)).length = 2 →
        (tiles.filter (fun t => t = 2)).length ≠ 1 →
        (validateBoard tiles).error =
          some ("Need exactly 1 shield tile, got " ++
            toString (tiles.filter (fun t => t = 2)).length)) := by
  have hanyiff : (tiles.any (fun t => t ≠ 0 && t ≠ 1 && t ≠ 2) = true) ↔
      ¬(∀ t ∈ tiles, t = 0 ∨ t = 1 ∨ t = 2) := by
    constructor
    · intro h hall
      rcases List.any_eq_true.mp h with ⟨x, hx, hpx⟩
      rcases hall x hx with h0 | h0 | h0 <;> simp [h0] at hpx
    · intro hna
      push_neg at hna
      obtain ⟨x, hx, h0, h1, h2⟩ := hna
      exact List.any_eq_true.mpr ⟨x, hx, by simp [h0, h1, h2]⟩
  by_cases hlen : tiles.length = 15
  · have hL : ¬(tiles.length ≠ 15) := not_not_intro hlen
    by_cases hvw : ∀ t ∈ tiles, t = 0 ∨ t = 1 ∨ t = 2
    · have hA : ¬(tiles.any (fun t => t ≠ 0 && t ≠ 1 && t ≠ 2) = true) :=
        fun h => (hanyiff.mp h) hvw
      by_cases hp : (tiles.filter (fun t => t = 1)).length = 2
      · by_cases hs : (tiles.filter (fun t => t = 2)).length = 1
        · refine ⟨?_, ?_, ?_, ?_⟩
          · unfold validateBoard
            rw [if_neg hL, if_neg hA, if_neg (not_not_intro hp), if_neg (not_not_intro hs)]
            exact ⟨fun _ => ⟨hlen, hvw, hp, hs⟩, fun _ => rfl⟩
          · intro h
            exact absurd hlen h
          · intro _ _ h
            exact absurd hp h
          · intro _ _ _ h
            exact absurd hs h
        · refine ⟨?_, ?_, ?_, ?_⟩
          · unfold validateBoard
            rw [if_neg hL, if_neg hA, if_neg (not_not_intro hp), if_pos hs]
            simp [hs]
          · intro h
            exact absurd hlen h
          · intro _ _ h
            exact absurd hp h
          · intro _ _ _ _
            unfold validateBoard
            rw [if_neg hL, if_neg hA, if_neg (not_not_intro hp), if_pos hs]
      · refine ⟨?_, ?_, ?_, ?_⟩
        · unfold validateBoard
          rw [if_neg hL, if_neg hA, if_pos hp]
          simp [hp]
        · intro h
          exact absurd hlen h
        · intro _ _ _
          unfold validateBoard
          rw [if_neg hL, if_neg hA, if_pos hp]
        · intro _ _ h _
          exact absurd h hp
    · have hA : tiles.any (fun t => t ≠ 0 && t ≠ 1 && t ≠ 2) = true := hanyiff.mpr hvw
      refine ⟨?_, ?_, ?_, ?_⟩
      · unfold validateBoard
        rw [if_neg hL, if_pos hA]
        simp [hvw]
      · intro h
        exact absurd hlen h
      · intro _ hvals _
        exact absurd hvals hvw
      · intro _ hvals _ _
        exact absurd hvals hvw
  · refine ⟨?_, ?_, ?_, ?_⟩
    · unfold validateBoard
      rw [if_pos hlen]
      simp [hlen]
    · intro _
      unfold validateBoard
      rw [if_pos hlen]
    · intro h _ _
      exact absurd h hlen
    · intro h _ _ _
      exact absurd h hlen

/-- Witness for C2: a concrete valid board (2 poison, 1 shield, 12 normal)
is accepted by `validateBoard`. -/
theorem validateBoard_spec_witness :
    (validateBoard [1, 1, 2, 0, 0, 0, 0, 0, 0, 0, 0, 0, 0, 0, 0]).valid = true :=
  (validateBoard_spec [1, 1, 2, 0, 0, 0, 0, 0, 0, 0, 0, 0, 0, 0, 0]).1.mpr (by decide)

/-- C3: whenever the claimed tile type differs from the board value at the
attacked index, or the index is outside 0..14, or the tile array does not have
15 slots, `generateTileProof` fails with an error and neither a witness nor a
proof is produced (the ZK event list is empty), so a mismatched claim is never
submitted. -/
theorem generateTileProof_fails_locally (tiles : List Nat) (tileIndex : Int)
    (tileType : Nat)
    (h : tiles.length ≠ 15 ∨ tileIndex < 0 ∨ tileIndex > 14 ∨
      tiles.getD tileIndex.toNat 0 ≠ tileType) :
    (∃ msg, (generateTileProof tiles tileIndex tileType).1 = Except.error msg) ∧
    (generateTileProof tiles tileIndex tileType).2 = [] := by
  unfold generateTileProof
  by_cases h1 : tiles.length = 15
  · by_cases h2 : tileIndex < 0 ∨ tileIndex > 14
    · have h2' : (tileIndex < 0 || tileIndex > 14) = true := by
        rcases h2 with h2 | h2 <;> simp [h2]
      simp [h1, h2']
    · have h2' : (tileIndex < 0 || tileIndex > 14) = false := by
        push_neg at h2
        simp [not_lt.mpr h2.1, not_lt.mpr h2.2]
      have h3 : tiles.getD tileIndex.toNat 0 ≠ tileType := by
        rcases h with h | h | h | h
        · exact absurd h1 h
        · exact absurd (Or.inl h) h2
        · exact absurd (Or.inr h) h2
        · exact h
      have h3' : ¬(tiles[tileIndex.toNat]?.getD 0 = tileType) := by
        simpa [List.getD] using h3
      simp [h1, h2', h3']
  · simp [h1]

/-- Witness for C3: on a 15-tile all-normal board, claiming tile 3 is poison
(a mismatch) fails locally with no witness or proof produced. -/
theorem generateTileProof_fails_locally_witness :
    (∃ msg, (generateTileProof [0, 0, 0, 0, 0, 0, 0, 0, 0, 0, 0, 0, 0, 0, 0]
        3 1).1 = Except.error msg) ∧
    (generateTileProof [0, 0, 0, 0, 0, 0, 0, 0, 0, 0, 0, 0, 0, 0, 0] 3 1).2 = [] :=
  generateTileProof_fails_locally [0, 0, 0, 0, 0, 0, 0, 0, 0, 0, 0, 0, 0, 0, 0]
    3 1 (by decide)

/-- C4: when the responder address equals the Player 1 (initiator) address of a
well-formed artifact, `importAndSignAuthEntry` fails with the self-play error,
and no network operation happens before that failure (only the local parse of
the artifact precedes the check). -/
theorem importAndSignAuthEntry_selfPlay (artifact : AuthEntryData)
    (player2Address : String) (player2Points currentLedger : Nat)
    (hfn : artifact.functionName = "start_game") (hargs : artifact.args.length = 2)
    (hself : player2Address = artifact.player1) :
    importAndSignAuthEntry artifact player2Address player2Points currentLedger =
      (Except.error AcceptError.selfPlay, []) := by
  subst hself
  unfold importAndSignAuthEntry parseAuthEntry
  rw [if_neg (not_not_intro hfn), if_neg (not_not_intro hargs)]
  simp

/-- Witness for C4: a concrete artifact whose parse succeeds, accepted by its
own initiator, fails with the self-play error and an empty network trace. -/
theorem importAndSignAuthEntry_selfPlay_witness :
    importAndSignAuthEntry ⟨"GA1", "start_game", [7, 100], 500⟩ "GA1" 100 10 =
      (Except.error AcceptError.selfPlay, []) :=
  importAndSignAuthEntry_selfPlay ⟨"GA1", "start_game", [7, 100], 500⟩ "GA1" 100 10
    rfl rfl rfl

/-- C1 (spec-modelled expiry enforcement): for a well-formed artifact whose
validity window has already lapsed at merge time (current ledger past
`validUntil`), `importAndSignAuthEntry` fails with `HandshakeExpired`, even
when all other fields are valid (the responder is a different address and the
artifact parses). -/
theorem importAndSignAuthEntry_expired (artifact : AuthEntryData)
    (player2Address : String) (player2Points currentLedger : Nat)
    (hfn : artifact.functionName = "start_game") (hargs : artifact.args.length = 2)
    (hother : player2Address ≠ artifact.player1)
    (hlapsed : artifact.validUntil < currentLedger) :
    (importAndSignAuthEntry artifact player2Address player2Points
      currentLedger).1 = Except.error AcceptError.handshakeExpired := by
  unfold importAndSignAuthEntry parseAuthEntry injectSignedAuthEntry
  rw [if_neg (not_not_intro hfn), if_neg (not_not_intro hargs)]
  simp [hother, hlapsed]

/-- Witness for C1: a concrete artifact with validity window 500, merged by a
different responder at ledger 501, fails with `HandshakeExpired`. -/
theorem importAndSignAuthEntry_expired_witness :
    (importAndSignAuthEntry ⟨"GA1", "start_game", [7, 100], 500⟩ "GB2" 100
      501).1 = Except.error AcceptError.handshakeExpired :=
  importAndSignAuthEntry_expired ⟨"GA1", "start_game", [7, 100], 500⟩ "GB2" 100
    501 rfl rfl (by decide) (by decide)

/-- C5: the `prepareStartGame` auth-entry selection is by address equality, not
by position: when no entry is addressed to the initiator it fails with the
no-authorization-found error, and when exactly one entry is addressed to the
initiator then every reordering of the dry-run result selects that same entry. -/
theorem prepareStartGame_selects_by_address (player1 : String)
    (entries entries2 : List AuthEntry) (e : AuthEntry)
    (hperm : entries.Perm entries2) :
    ((∀ x ∈ entries, x.address ≠ some player1) →
      selectPlayer1AuthEntry entries player1 =
        Except.error ("No auth entry found for Player 1 (" ++ player1 ++ ")"))
    ∧ (e ∈ entries → e.address = some player1 →
        (∀ x ∈ entries, x.address = some player1 → x = e) →
        selectPlayer1AuthEntry entries2 player1 = Except.ok e) := by
  constructor
  · intro hnone
    unfold selectPlayer1AuthEntry
    have hfind : entries.find? (fun x => x.address == some player1) = none := by
      rw [List.find?_eq_none]
      intro x hx
      simpa using hnone x hx
    rw [hfind]
  · intro he haddr huniq
    unfold selectPlayer1AuthEntry
    have hmem2 : e ∈ entries2 := hperm.mem_iff.mp he
    have hsome : (entries2.find? (fun x => x.address == some player1)).isSome := by
      rw [List.find?_isSome]
      exact ⟨e, hmem2, by simp [haddr]⟩
    obtain ⟨x, hx⟩ := Option.isSome_iff_exists.mp hsome
    have hxmem : x ∈ entries2 := List.mem_of_find?_eq_some hx
    have hxp : x.address = some player1 := by
      have := List.find?_some hx
      simpa using this
    have hxe : x = e := huniq x (hperm.mem_iff.mpr hxmem) hxp
    rw [hx, hxe]

/-- Witness for C5: with two address-based entries and one non-address entry,
the Player 1 entry is selected from a reordering, and a list with no matching
address fails with the no-authorization-found error. -/
theorem prepareStartGame_selects_by_address_witness :
    selectPlayer1AuthEntry [⟨some "GB2", 1⟩, ⟨none, 2⟩, ⟨some "GA1", 3⟩] "GA1" =
      Except.ok ⟨some "GA1", 3⟩ ∧
    selectPlayer1AuthEntry [⟨some "GB2", 1⟩, ⟨none, 2⟩] "GA1" =
      Except.error ("No auth entry found for Player 1 (" ++ "GA1" ++ ")") := by
  constructor
  · exact (prepareStartGame_selects_by_address "GA1"
      [⟨some "GA1", 3⟩, ⟨some "GB2", 1⟩, ⟨none, 2⟩]
      [⟨some "GB2", 1⟩, ⟨none, 2⟩, ⟨some "GA1", 3⟩] ⟨some "GA1", 3⟩
      (by decide)).2 (by decide) (by decide) (by decide)
  · exact (prepareStartGame_selects_by_address "GA1"
      [⟨some "GB2", 1⟩, ⟨none, 2⟩] [⟨some "GB2", 1⟩, ⟨none, 2⟩] ⟨some "GB2", 1⟩
      (List.Perm.refl _)).1 (by decide)

/-- C6 counterexample: the claim fails on the duplicate `respondToAttack` of
`src/unnamed/part_004`: a 0-byte proof blob is not rejected there — the length
gate returns ok (the submission proceeds) and only a console warning is logged. -/
theorem respondToAttack_variant_not_rejecting :
    (respondToAttackProofGateVariant 0).1 = Except.ok () ∧
    (respondToAttackProofGateVariant 0).2 = true := by
  constructor <;> rfl

/-- C6 amended: in `poisonGameService.ts`, `respondToAttack` rejects every proof
blob whose byte length is not exactly 14592 before the transaction is sent, and
`commitBoard` (in both service variants) rejects every commitment that is not
exactly 32 bytes before submission; the duplicate `respondToAttack` variant in
`src/unnamed/part_004` instead only logs a warning for a wrong-length proof and
proceeds. -/
theorem lengthGates_spec (proofLen hashLen : Nat)
    (hp : proofLen ≠ 14592) (hh : hashLen ≠ 32) :
    respondToAttackProofGate proofLen =
      Except.error ("Proof must be 14592 bytes, got " ++ toString proofLen) ∧
    commitBoardHashGate hashLen =
      Except.error ("boardHash must be 32 bytes, got " ++ toString hashLen) ∧
    (respondToAttackProofGateVariant proofLen).1 = Except.ok () ∧
    (respondToAttackProofGateVariant proofLen).2 = true := by
  unfold respondToAttackProofGate commitBoardHashGate respondToAttackProofGateVariant
  rw [if_pos hp, if_pos hh, if_pos hp]
  exact ⟨rfl, rfl, rfl, rfl⟩

/-- Witness for the C6 amended theorem at concrete wrong lengths (0 and 0). -/
theorem lengthGates_spec_witness :
    respondToAttackProofGate 0 =
      Except.error ("Proof must be 14592 bytes, got " ++ toString 0) ∧
    commitBoardHashGate 0 =
      Except.error ("boardHash must be 32 bytes, got " ++ toString 0) ∧
    (respondToAttackProofGateVariant 0).1 = Except.ok () ∧
    (respondToAttackProofGateVariant 0).2 = true :=
  lengthGates_spec 0 0 (by decide) (by decide)

/-- C7: for a player number in 1 or 2, the derived play-phase sub-state is
MyTurnToAttack exactly when there is no pending attack and the current turn is
this player; MyTurnToDefend exactly when there is a pending attack and the
current turn is not this player; and Waiting in all other cases. -/
theorem derivedSubState_spec (me : Nat) (g : GameStateView)
    (hme : me = 1 ∨ me = 2) :
    (derivedSubState me g = SubState.myTurnToAttack ↔
      g.has_pending_attack = false ∧ g.current_turn = me)
    ∧ (derivedSubState me g = SubState.myTurnToDefend ↔
      g.has_pending_attack = true ∧ g.current_turn ≠ me)
    ∧ (derivedSubState me g = SubState.waiting ↔
      ¬(g.has_pending_attack = false ∧ g.current_turn = me) ∧
      ¬(g.has_pending_attack = true ∧ g.current_turn ≠ me)) := by
  have hne : me ≠ 0 := by rcases hme with h | h <;> simp [h]
  unfold derivedSubState isMyAttackTurn isMyDefenseTurn
  cases hpa : g.has_pending_attack <;>
    by_cases hct : g.current_turn = me <;>
      simp [hne, hct]

/-- Witness for C7: player 1 with no pending attack and current turn 1 is in
the MyTurnToAttack sub-state. -/
theorem derivedSubState_spec_witness :
    derivedSubState 1 ⟨1, false⟩ = SubState.myTurnToAttack :=
  (derivedSubState_spec 1 ⟨1, false⟩ (Or.inl rfl)).1.mpr (by decide)

/-- C8 counterexample: the claim fails on `handleCreateGame` in `GameLobby.tsx`,
which chooses the session id as `Math.floor(Math.random() * 1000000000)`: the
legal `Math.random()` output 0 yields session id 0 (so zero can be returned),
already outside the claimed non-zero range. -/
theorem handleCreateGame_zero_sessionId :
    handleCreateGameSessionId 0 = 0 ∧ ¬(1 ≤ handleCreateGameSessionId 0) := by
  constructor
  · unfold handleCreateGameSessionId
    norm_num
  · unfold handleCreateGameSessionId
    norm_num

/-- C8 amended: the lobby of `src/unnamed/part_002` (`createRandomSessionId`)
does draw the session id as the first nonzero 32-bit value from the random
source, so its result is always in the full non-zero range 1..2^32 - 1 and
every value of that range is attainable (a single nonzero draw is returned
unchanged, so a uniform draw stays uniform); but the duplicate lobby
`GameLobby.tsx` instead uses `Math.floor(Math.random() * 1000000000)`, whose
result can be 0 and never exceeds 999999999 < 2^32 - 1. -/
theorem sessionId_selection_spec (draws : List Nat) (v : Nat) (r : ℚ)
    (hv1 : 1 ≤ v) (hv2 : v ≤ 2 ^ 32 - 1) (hr0 : 0 ≤ r) (hr1 : r < 1) :
    (∀ w, createRandomSessionId draws = some w → 1 ≤ w ∧ w ≤ 2 ^ 32 - 1)
    ∧ createRandomSessionId [v] = some v
    ∧ (0 ≤ handleCreateGameSessionId r ∧ handleCreateGameSessionId r ≤ 999999999) := by
  refine ⟨?_, ?_, ?_, ?_⟩
  · intro w hw
    unfold createRandomSessionId at hw
    have hmem : w ∈ draws.map (fun d => d % 2 ^ 32) := List.mem_of_find?_eq_some hw
    have hpw : w ≠ 0 := by
      have := List.find?_some hw
      simpa using this
    obtain ⟨d, _, hd⟩ := List.mem_map.mp hmem
    have hlt : w < 2 ^ 32 := hd ▸ Nat.mod_lt d (by norm_num)
    exact ⟨Nat.one_le_iff_ne_zero.mpr hpw, Nat.le_sub_one_of_lt hlt⟩
  · unfold createRandomSessionId
    have h2 : (2 : Nat) ^ 32 = 4294967296 := by norm_num
    rw [h2] at hv2
    have hmod : v % 2 ^ 32 = v := Nat.mod_eq_of_lt (by omega)
    simp only [List.map_cons, List.map_nil, List.find?, hmod]
    have hd : (decide (v ≠ 0)) = true := by
      simp only [decide_eq_true_eq]
      omega
    rw [hd]
  · unfold handleCreateGameSessionId
    positivity
  · unfold handleCreateGameSessionId
    have : r * 1000000000 < 1000000000 := by nlinarith
    have hfl : ⌊r * 1000000000⌋ < 1000000000 := by
      exact_mod_cast Int.floor_lt.mpr (by exact_mod_cast this)
    omega

/-- Witness for the C8 amended theorem: a single nonzero draw of 7 yields
session id 7, and the `GameLobby.tsx` formula at the random value 1/2 stays
within 0..999999999. -/
theorem sessionId_selection_spec_witness :
    createRandomSessionId [7] = some 7 ∧
    (0 ≤ handleCreateGameSessionId (1 / 2) ∧
      handleCreateGameSessionId (1 / 2) ≤ 999999999) := by
  have h := sessionId_selection_spec [7] 7 (1 / 2) (by decide) (by decide)
    (by norm_num) (by norm_num)
  exact ⟨h.2.1, h.2.2⟩

/-- C9: a `runAction` invocation while the action lock is held or a submission
is busy returns immediately — the body does not execute, nothing is queued as a
result, and no error is raised — while an invocation with the lock free and no
busy submission executes the body and leaves the lock released on every exit
path, including when the body fails with an error. -/
theorem runAction_lock_spec (lock loading isCommitting isResponding : Bool)
    (action : Except String Unit) :
    ((lock = true ∨ isBusy loading isCommitting isResponding = true) →
      runAction lock (isBusy loading isCommitting isResponding) action =
        ⟨false, lock, none⟩)
    ∧ (lock = false → isBusy loading isCommitting isResponding = false →
      runAction lock (isBusy loading isCommitting isResponding) action =
        ⟨true, false, some action⟩) := by
  constructor
  · intro h
    unfold runAction
    rcases h with h | h <;> simp [h]
  · intro hl hb
    unfold runAction
    simp [hl, hb]

/-- Witness for C9: with the lock held, a pending action is skipped with the
lock untouched; with the lock free and nothing busy, a failing action runs and
the lock is released afterwards. -/
theorem runAction_lock_spec_witness :
    runAction true (isBusy false false false) (Except.error "boom") =
      ⟨false, true, none⟩ ∧
    runAction false (isBusy false false false) (Except.error "boom") =
      ⟨true, false, some (Except.error "boom")⟩ :=
  ⟨(runAction_lock_spec true false false false (Except.error "boom")).1
      (Or.inl rfl),
    (runAction_lock_spec false false false false (Except.error "boom")).2
      rfl rfl⟩

/-- Auxiliary bound: setting one slot can increase the number of slots equal to
a given value by at most one. -/
theorem filterlen_set_le_succ (l : List Nat) (i a b : Nat) :
    (((l.set i b).filter (fun t => t = a)).length) ≤
      ((l.filter (fun t => t = a)).length) + 1 := by
  induction l generalizing i with
  | nil => simp
  | cons hd tl ih =>
    cases i with
    | zero =>
      simp only [List.set_cons_zero, List.filter_cons]
      by_cases hb : b = a <;> by_cases hh : hd = a <;> simp [hb, hh]
      omega
    | succ n =>
      simp only [List.set_cons_succ, List.filter_cons]
      by_cases hh : hd = a <;> simp [hh] <;> exact ih n

theorem filterlen_set_le_of_ne (l : List Nat) (i a b : Nat) (hba : b ≠ a) :
    (((l.set i b).filter (fun t => t = a)).length) ≤
      ((l.filter (fun t => t = a)).length) := by
  induction l generalizing i with
  | nil => simp
  | cons hd tl ih =>
    cases i with
    | zero =>
      simp only [List.set_cons_zero, List.filter_cons]
      by_cases hh : hd = a <;> simp [hba, hh]
    | succ n =>
      simp only [List.set_cons_succ, List.filter_cons]
      by_cases hh : hd = a <;> simp [hh] <;> exact ih n

/-- C10: the board-editor tile click preserves the placement bounds — starting
from a 15-slot board whose tiles are all in 0, 1, 2 with at most 2 poison and
at most 1 shield, any click with any active tool yields a board with the same
three invariants; a click that would exceed a bound leaves the board unchanged,
and clicking a tile that already holds the active tool clears it to 0. -/
theorem tileClick_preserves_bounds (board : List Nat) (idx tool : Nat)
    (hlen : board.length = 15) (hidx : idx < 15)
    (hvals : ∀ t ∈ board, t = 0 ∨ t = 1 ∨ t = 2)
    (hp : (board.filter (fun t => t = 1)).length ≤ 2)
    (hs : (board.filter (fun t => t = 2)).length ≤ 1)
    (htool : tool = 0 ∨ tool = 1 ∨ tool = 2) :
    (∀ t ∈ tileClick board idx tool, t = 0 ∨ t = 1 ∨ t = 2)
    ∧ ((tileClick board idx tool).filter (fun t => t = 1)).length ≤ 2
    ∧ ((tileClick board idx tool).filter (fun t => t = 2)).length ≤ 1
    ∧ (board.getD idx 0 = tool → tileClick board idx tool = board.set idx 0)
    ∧ (tool = 1 → 2 ≤ (board.filter (fun t => t = 1)).length →
        board.getD idx 0 ≠ 1 → tileClick board idx tool = board)
    ∧ (tool = 2 → 1 ≤ (board.filter (fun t => t = 2)).length →
        board.getD idx 0 ≠ 2 → tileClick board idx tool = board) := by
  unfold tileClick
  by_cases h1 : board.getD idx 0 = tool
  · rw [if_pos h1]
    refine ⟨?_, ?_, ?_, fun _ => rfl, ?_, ?_⟩
    · intro t ht
      rcases List.mem_or_eq_of_mem_set ht with h | h
      · exact hvals t h
      · exact Or.inl h
    · exact le_trans (filterlen_set_le_of_ne board idx 1 0 (by decide)) hp
    · exact le_trans (filterlen_set_le_of_ne board idx 2 0 (by decide)) hs
    · intro ht _ hne
      rw [ht] at h1
      exact absurd h1 hne
    · intro ht _ hne
      rw [ht] at h1
      exact absurd h1 hne
  · rw [if_neg h1]
    by_cases g1 : tool = 1 ∧ 2 ≤ (board.filter (fun t => t = 1)).length ∧
        board.getD idx 0 ≠ 1
    · rw [if_pos g1]
      exact ⟨hvals, hp, hs, fun h => absurd h h1, fun _ _ _ => rfl,
        fun _ _ _ => rfl⟩
    · rw [if_neg g1]
      by_cases g2 : tool = 2 ∧ 1 ≤ (board.filter (fun t => t = 2)).length ∧
          board.getD idx 0 ≠ 2
      · rw [if_pos g2]
        exact ⟨hvals, hp, hs, fun h => absurd h h1, fun _ _ _ => rfl,
          fun _ _ _ => rfl⟩
      · rw [if_neg g2]
        refine ⟨?_, ?_, ?_, fun h => absurd h h1, ?_, ?_⟩
        · intro t ht
          rcases List.mem_or_eq_of_mem_set ht with h | h
          · exact hvals t h
          · exact h ▸ htool
        · rcases htool with h0 | h0 | h0
          · exact le_trans (filterlen_set_le_of_ne board idx 1 tool
              (by rw [h0]; decide)) hp
          · have hpc : (board.filter (fun t => t = 1)).length ≤ 1 := by
              by_contra hc
              push_neg at hc
              exact g1 ⟨h0, hc, fun he => h1 (he.trans h0.symm)⟩
            calc ((board.set idx tool).filter (fun t => t = 1)).length
                ≤ (board.filter (fun t => t = 1)).length + 1 :=
                  filterlen_set_le_succ board idx 1 tool
              _ ≤ 2 := by omega
          · exact le_trans (filterlen_set_le_of_ne board idx 1 tool
              (by rw [h0]; decide)) hp
        · rcases htool with h0 | h0 | h0
          · exact le_trans (filterlen_set_le_of_ne board idx 2 tool
              (by rw [h0]; decide)) hs
          · exact le_trans (filterlen_set_le_of_ne board idx 2 tool
              (by rw [h0]; decide)) hs
          · have hsc : (board.filter (fun t => t = 2)).length ≤ 0 := by
              by_contra hc
              push_neg at hc
              exact g2 ⟨h0, hc, fun he => h1 (he.trans h0.symm)⟩
            calc ((board.set idx tool).filter (fun t => t = 2)).length
                ≤ (board.filter (fun t => t = 2)).length + 1 :=
                  filterlen_set_le_succ board idx 2 tool
              _ ≤ 1 := by omega
        · intro h2 hcount hne
          exact absurd ⟨h2, hcount, hne⟩ g1
        · intro h2 hcount hne
          exact absurd ⟨h2, hcount, hne⟩ g2

/-- Witness for C10: on a full board (2 poison, 1 shield placed), clicking a
normal tile with the poison tool keeps the poison count within 2. -/
theorem tileClick_preserves_bounds_witness :
    ((tileClick [1, 1, 2, 0, 0, 0, 0, 0, 0, 0, 0, 0, 0, 0, 0] 5 1).filter
      (fun t => t = 1)).length ≤ 2 :=
  (tileClick_preserves_bounds [1, 1, 2, 0, 0, 0, 0, 0, 0, 0, 0, 0, 0, 0, 0] 5 1
    rfl (by decide) (by decide) (by decide) (by decide)
    (Or.inr (Or.inl rfl))).2.1

end PoisonGame
